import Mathlib

/-
Verification of the vote-aggregation core of drivers/clk/qcom/clk-smd-rpm.c.

The embedding models one lifecycle call on a clock handle.  The calling
thread holds the single global mutex rpm_smd_clk_lock for the whole call,
so a call sees a fixed snapshot of the peer handle and no interleaving;
each operation is therefore a pure function of the handle, the peer
snapshot, and a transport oracle.  The transport oracle assigns to the
n-th qcom_rpm_smd_write call inside the operation its int return value
(0 on success, a nonzero errno-style value on failure), which is exactly
the information the driver branches on.  Every operation also returns the
ordered list of submissions it handed to qcom_rpm_smd_write, so ordering
and counting properties are directly expressible.
-/

/-- Number of values of a 32-bit unsigned integer (u32). -/
def U32 : Nat := 4294967296

/-- Number of values of a 64-bit unsigned long. -/
def U64 : Nat := 18446744073709551616

/-- DIV_ROUND_UP(n, d) from the kernel: ceiling division computed on
unsigned long (64-bit) operands, so the sum n + d - 1 wraps modulo 2^64. -/
def div_round_up64 (n d : Nat) : Nat := ((n + d - 1) % U64) / d

/-- cpu_to_le32 narrowing of a value to its low 32 bits, as performed when
an unsigned long is stored into a u32 request field. -/
def toU32 (n : Nat) : Nat := n % U32

/-- The 4-byte little-endian wire image of the low 32 bits of a value. -/
def u32le (n : Nat) : List Nat :=
  [n % 256, n / 256 % 256, n / 65536 % 256, n / 16777216 % 256]

/-- struct clk_smd_rpm_req: the three u32 fields of one vote record. -/
structure ClkSmdRpmReq where
  key : Nat
  nbytes : Nat
  value : Nat
deriving DecidableEq

/-- The 12-byte wire image of a vote record: three little-endian u32
fields in declaration order (key, nbytes, value). -/
def reqBytes (q : ClkSmdRpmReq) : List Nat :=
  u32le q.key ++ u32le q.nbytes ++ u32le q.value

/-- The RPM context of a write: QCOM_SMD_RPM_ACTIVE_STATE or
QCOM_SMD_RPM_SLEEP_STATE. -/
inductive RpmCtx
| active
| sleep
deriving DecidableEq

/-- struct clk_smd_rpm: one clock handle.  The peer pointer is passed
separately to each operation (as the snapshot read under the lock), and
the rpm transport handle is replaced by the transport oracle. -/
structure ClkSmdRpm where
  rpm_key : Nat
  rpm_res_type : Nat
  rpm_clk_id : Nat
  active_only : Bool
  branch : Bool
  rate : Nat
  enabled : Bool
deriving DecidableEq

/-- One qcom_rpm_smd_write submission: context, resource type, resource
id, and the request record. -/
structure Vote where
  ctx : RpmCtx
  res_type : Nat
  clk_id : Nat
  req : ClkSmdRpmReq
deriving DecidableEq

/-- Transport oracle: the int returned by the n-th qcom_rpm_smd_write
call within one lifecycle operation (0 means success). -/
def Transport : Type := Nat → Int

/-- clk_smd_rpm_set_rate_active: the submission it builds.  The request
is key = rpm_key, nbytes = sizeof(u32) = 4, value = the rate divided by
1000 rounding up, narrowed to u32 by cpu_to_le32. -/
def clk_smd_rpm_set_rate_active (r : ClkSmdRpm) (rate : Nat) : Vote :=
  { ctx := RpmCtx.active, res_type := r.rpm_res_type, clk_id := r.rpm_clk_id,
    req := { key := toU32 r.rpm_key, nbytes := 4,
             value := toU32 (div_round_up64 rate 1000) } }

/-- clk_smd_rpm_set_rate_sleep: same record, submitted to the sleep
context. -/
def clk_smd_rpm_set_rate_sleep (r : ClkSmdRpm) (rate : Nat) : Vote :=
  { ctx := RpmCtx.sleep, res_type := r.rpm_res_type, clk_id := r.rpm_clk_id,
    req := { key := toU32 r.rpm_key, nbytes := 4,
             value := toU32 (div_round_up64 rate 1000) } }

/-- to_active_sleep: the (active, sleep) contextual pair of a handle for
a given rate; active-only handles contribute 0 to the sleep context. -/
def to_active_sleep (r : ClkSmdRpm) (rate : Nat) : Nat × Nat :=
  (rate, if r.active_only then 0 else rate)

/-- The C idiom !!x: collapse a value to 0 or 1. -/
def boolify (n : Nat) : Nat := if n = 0 then 0 else 1

/-- Result of an int-returning lifecycle operation: the returned int,
the handle state after the call, and the ordered submissions. -/
structure OpResult where
  ret : Int
  clk : ClkSmdRpm
  votes : List Vote
deriving DecidableEq

/-- Result of clk_smd_rpm_unprepare.  The C function returns void: its
internal ret is computed but discarded, so the caller-visible outcome is
only the handle state (and, externally, the submissions made). -/
structure UnprepareResult where
  clk : ClkSmdRpm
  votes : List Vote
deriving DecidableEq

/-- clk_smd_rpm_prepare.  Paths: rate 0 skips voting and enables; an
active-vote failure returns it; a sleep-vote failure submits one
compensating active vote for the raw peer contribution and the result of
that compensating write becomes ret; finally enabled is set iff ret = 0. -/
def clk_smd_rpm_prepare (r peer : ClkSmdRpm) (t : Transport) : OpResult :=
  if r.rate = 0 then
    { ret := 0, clk := { r with enabled := true }, votes := [] }
  else
    let ts := to_active_sleep r r.rate
    let ps := if peer.enabled then to_active_sleep peer peer.rate else (0, 0)
    let active_rate := max ts.1 ps.1
    let active_rate := if r.branch then boolify active_rate else active_rate
    let v1 := clk_smd_rpm_set_rate_active r active_rate
    if t 0 ≠ 0 then
      { ret := t 0, clk := r, votes := [v1] }
    else
      let sleep_rate := max ts.2 ps.2
      let sleep_rate := if r.branch then boolify sleep_rate else sleep_rate
      let v2 := clk_smd_rpm_set_rate_sleep r sleep_rate
      if t 1 ≠ 0 then
        let v3 := clk_smd_rpm_set_rate_active r ps.1
        if t 2 = 0 then
          { ret := 0, clk := { r with enabled := true }, votes := [v1, v2, v3] }
        else
          { ret := t 2, clk := r, votes := [v1, v2, v3] }
      else
        { ret := 0, clk := { r with enabled := true }, votes := [v1, v2] }

/-- clk_smd_rpm_unprepare.  Votes the peer-only contribution for both
contexts; enabled is cleared only when both votes succeed; a rate of 0
skips everything; the internal error is never returned (void). -/
def clk_smd_rpm_unprepare (r peer : ClkSmdRpm) (t : Transport) : UnprepareResult :=
  if r.rate = 0 then { clk := r, votes := [] }
  else
    let ps := if peer.enabled then to_active_sleep peer peer.rate else (0, 0)
    let active_rate := if r.branch then boolify ps.1 else ps.1
    let v1 := clk_smd_rpm_set_rate_active r active_rate
    if t 0 ≠ 0 then { clk := r, votes := [v1] }
    else
      let sleep_rate := if r.branch then boolify ps.2 else ps.2
      let v2 := clk_smd_rpm_set_rate_sleep r sleep_rate
      if t 1 ≠ 0 then { clk := r, votes := [v1, v2] }
      else { clk := { r with enabled := false }, votes := [v1, v2] }

/-- clk_smd_rpm_set_rate.  A disabled handle returns 0 at once with no
votes and no state change; otherwise both contexts are voted from the
candidate rate and the live peer snapshot (no branch collapse here), and
the rate is committed only after both votes succeed. -/
def clk_smd_rpm_set_rate (r peer : ClkSmdRpm) (rate : Nat) (t : Transport) : OpResult :=
  if r.enabled then
    let ts := to_active_sleep r rate
    let ps := if peer.enabled then to_active_sleep peer peer.rate else (0, 0)
    let v1 := clk_smd_rpm_set_rate_active r (max ts.1 ps.1)
    if t 0 ≠ 0 then { ret := t 0, clk := r, votes := [v1] }
    else
      let v2 := clk_smd_rpm_set_rate_sleep r (max ts.2 ps.2)
      if t 1 ≠ 0 then { ret := t 1, clk := r, votes := [v1, v2] }
      else { ret := 0, clk := { r with rate := rate }, votes := [v1, v2] }
  else
    { ret := 0, clk := r, votes := [] }

/-- clk_smd_rpm_round_rate: identity, the RPM does the real rounding. -/
def clk_smd_rpm_round_rate (rate : Nat) : Nat := rate

/-- clk_smd_rpm_recalc_rate: the last committed rate. -/
def clk_smd_rpm_recalc_rate (r : ClkSmdRpm) : Nat := r.rate

/-- clk_smd_rpm_enable_scaling.  The control record (key
QCOM_RPM_SMD_KEY_ENABLE, value 1) is written first to the sleep context
and then, only if that succeeded, to the active context, targeting
QCOM_SMD_RPM_MISC_CLK / QCOM_RPM_SCALING_ENABLE_ID.  Those three numeric
constants live in headers outside this tree, so they are abstract
parameters here; the logic is fully determined by the source. -/
def clk_smd_rpm_enable_scaling (enableKey miscType scalingId : Nat)
    (t : Transport) : Int × List Vote :=
  let req : ClkSmdRpmReq := { key := toU32 enableKey, nbytes := 4, value := 1 }
  let v1 : Vote := { ctx := RpmCtx.sleep, res_type := miscType,
                     clk_id := scalingId, req := req }
  if t 0 ≠ 0 then (t 0, [v1])
  else
    let v2 : Vote := { ctx := RpmCtx.active, res_type := miscType,
                       clk_id := scalingId, req := req }
    if t 1 ≠ 0 then (t 1, [v1, v2])
    else (0, [v1, v2])

/-- Well-ordered submissions: the first one (if any) targets the active
context, and any sleep submission is preceded by an active submission
that the transport accepted. -/
def sleepAfterActiveOk (t : Transport) (vs : List Vote) : Prop :=
  (∀ v, vs.head? = some v → v.ctx = RpmCtx.active) ∧
  ∀ i v, vs.get? i = some v → v.ctx = RpmCtx.sleep →
    ∃ j w, j < i ∧ vs.get? j = some w ∧ w.ctx = RpmCtx.active ∧ t j = 0

/-- A continuous-rate fixture handle (bus-style clock), not yet enabled. -/
def hBus : ClkSmdRpm :=
  { rpm_key := 25, rpm_res_type := 2, rpm_clk_id := 0, active_only := false,
    branch := false, rate := 19200000, enabled := false }

/-- A disabled peer fixture (identity element for aggregation). -/
def hPeerOff : ClkSmdRpm :=
  { rpm_key := 25, rpm_res_type := 2, rpm_clk_id := 0, active_only := true,
    branch := false, rate := 0, enabled := false }

/-- A branch (gate) fixture handle at the XO rate, not yet enabled. -/
def hXo : ClkSmdRpm :=
  { rpm_key := 25, rpm_res_type := 0, rpm_clk_id := 0, active_only := false,
    branch := true, rate := 19200000, enabled := false }

/-- An enabled active-only branch peer fixture at the XO rate. -/
def hXoPeer : ClkSmdRpm :=
  { rpm_key := 25, rpm_res_type := 0, rpm_clk_id := 0, active_only := true,
    branch := true, rate := 19200000, enabled := true }

/-- A fixture handle that was prepared while its rate was still 0, so it
is enabled with rate 0. -/
def hZeroOn : ClkSmdRpm :=
  { rpm_key := 1, rpm_res_type := 2, rpm_clk_id := 1, active_only := false,
    branch := false, rate := 0, enabled := true }

/-- Transport on which every write succeeds. -/
def tOk : Transport := fun _ => 0

/-- Transport failing the second write (the sleep vote) with -5 and
accepting every other write, in particular the compensating one. -/
def tC1 : Transport := fun n => if n = 1 then -5 else 0

/-- Transport failing the second write with -19 and the third (the
compensating vote) with -7. -/
def tC3 : Transport := fun n => if n = 1 then -19 else if n = 2 then -7 else 0

/-- Transport failing the second write with -22. -/
def tC4 : Transport := fun n => if n = 1 then -22 else 0

/-- Claim C7: prepare of a handle whose requested rate is 0 submits no
votes, returns success, and leaves the handle enabled with its state
otherwise untouched. -/
theorem prepare_zero_rate_no_votes (r peer : ClkSmdRpm) (t : Transport)
    (h : r.rate = 0) :
    (clk_smd_rpm_prepare r peer t).ret = 0 ∧
    (clk_smd_rpm_prepare r peer t).votes = [] ∧
    (clk_smd_rpm_prepare r peer t).clk = { r with enabled := true } := by
  simp [clk_smd_rpm_prepare, h]

/-- Witness for C7 at a concrete rate-0 handle. -/
theorem prepare_zero_rate_no_votes_witness :
    hZeroOn.rate = 0 ∧
    ((clk_smd_rpm_prepare hZeroOn hPeerOff tOk).ret = 0 ∧
     (clk_smd_rpm_prepare hZeroOn hPeerOff tOk).votes = [] ∧
     (clk_smd_rpm_prepare hZeroOn hPeerOff tOk).clk =
       { hZeroOn with enabled := true }) :=
  ⟨by decide, prepare_zero_rate_no_votes hZeroOn hPeerOff tOk (by decide)⟩

/-- Claim C8: set-rate on a handle that is not enabled returns success
at once, submits no votes, and leaves the handle completely unchanged. -/
theorem set_rate_not_enabled_no_effect (r peer : ClkSmdRpm) (rate : Nat)
    (t : Transport) (h : r.enabled = false) :
    (clk_smd_rpm_set_rate r peer rate t).ret = 0 ∧
    (clk_smd_rpm_set_rate r peer rate t).votes = [] ∧
    (clk_smd_rpm_set_rate r peer rate t).clk = r := by
  simp [clk_smd_rpm_set_rate, h]

/-- Witness for C8 at a concrete disabled handle and a fresh rate. -/
theorem set_rate_not_enabled_no_effect_witness :
    hBus.enabled = false ∧
    ((clk_smd_rpm_set_rate hBus hPeerOff 100000000 tOk).ret = 0 ∧
     (clk_smd_rpm_set_rate hBus hPeerOff 100000000 tOk).votes = [] ∧
     (clk_smd_rpm_set_rate hBus hPeerOff 100000000 tOk).clk = hBus) :=
  ⟨by decide, set_rate_not_enabled_no_effect hBus hPeerOff 100000000 tOk (by decide)⟩

/-- Claim C5: set-rate on an enabled handle votes both contexts from the
candidate rate and the live peer snapshot, commits the rate exactly when
both votes succeed, and on a vote failure returns that vote error with
the stored rate (and the whole handle) unchanged. -/
theorem set_rate_atomic_commit (r peer : ClkSmdRpm) (rate : Nat)
    (t : Transport) (he : r.enabled = true) :
    ((clk_smd_rpm_set_rate r peer rate t).votes.get? 0 =
       some (clk_smd_rpm_set_rate_active r
         (max (to_active_sleep r rate).1
              (if peer.enabled then (to_active_sleep peer peer.rate).1 else 0)))) ∧
    (t 0 = 0 →
       (clk_smd_rpm_set_rate r peer rate t).votes.get? 1 =
         some (clk_smd_rpm_set_rate_sleep r
           (max (to_active_sleep r rate).2
                (if peer.enabled then (to_active_sleep peer peer.rate).2 else 0)))) ∧
    (t 0 = 0 → t 1 = 0 →
       (clk_smd_rpm_set_rate r peer rate t).ret = 0 ∧
       (clk_smd_rpm_set_rate r peer rate t).clk = { r with rate := rate }) ∧
    (t 0 ≠ 0 →
       (clk_smd_rpm_set_rate r peer rate t).ret = t 0 ∧
       (clk_smd_rpm_set_rate r peer rate t).clk = r) ∧
    (t 0 = 0 → t 1 ≠ 0 →
       (clk_smd_rpm_set_rate r peer rate t).ret = t 1 ∧
       (clk_smd_rpm_set_rate r peer rate t).clk = r) := by
  by_cases hp : peer.enabled = true <;> by_cases h0 : t 0 = 0 <;>
    by_cases h1 : t 1 = 0 <;> simp [clk_smd_rpm_set_rate, he, hp, h0, h1]

/-- Witness for C5: an enabled handle, a live enabled peer, and a fully
accepting transport. -/
theorem set_rate_atomic_commit_witness :
    hXoPeer.enabled = true ∧
    (((clk_smd_rpm_set_rate hXoPeer hBus 40000000 tOk).votes.get? 0 =
       some (clk_smd_rpm_set_rate_active hXoPeer
         (max (to_active_sleep hXoPeer 40000000).1
              (if hBus.enabled then (to_active_sleep hBus hBus.rate).1 else 0)))) ∧
    (tOk 0 = 0 →
       (clk_smd_rpm_set_rate hXoPeer hBus 40000000 tOk).votes.get? 1 =
         some (clk_smd_rpm_set_rate_sleep hXoPeer
           (max (to_active_sleep hXoPeer 40000000).2
                (if hBus.enabled then (to_active_sleep hBus hBus.rate).2 else 0)))) ∧
    (tOk 0 = 0 → tOk 1 = 0 →
       (clk_smd_rpm_set_rate hXoPeer hBus 40000000 tOk).ret = 0 ∧
       (clk_smd_rpm_set_rate hXoPeer hBus 40000000 tOk).clk =
         { hXoPeer with rate := 40000000 }) ∧
    (tOk 0 ≠ 0 →
       (clk_smd_rpm_set_rate hXoPeer hBus 40000000 tOk).ret = tOk 0 ∧
       (clk_smd_rpm_set_rate hXoPeer hBus 40000000 tOk).clk = hXoPeer) ∧
    (tOk 0 = 0 → tOk 1 ≠ 0 →
       (clk_smd_rpm_set_rate hXoPeer hBus 40000000 tOk).ret = tOk 1 ∧
       (clk_smd_rpm_set_rate hXoPeer hBus 40000000 tOk).clk = hXoPeer)) :=
  ⟨by decide, set_rate_atomic_commit hXoPeer hBus 40000000 tOk (by decide)⟩

/-- Claim C10: the one-time enable-scaling initialization writes the
control record to the sleep context first; if that write fails the
active-context write is never attempted and the sleep error is returned;
otherwise the active-context write follows and its error (or success) is
returned. -/
theorem enable_scaling_sleep_first (k mt sid : Nat) (t : Transport) :
    (t 0 ≠ 0 →
       (clk_smd_rpm_enable_scaling k mt sid t).1 = t 0 ∧
       (clk_smd_rpm_enable_scaling k mt sid t).2.map Vote.ctx = [RpmCtx.sleep]) ∧
    (t 0 = 0 →
       (clk_smd_rpm_enable_scaling k mt sid t).2.map Vote.ctx =
         [RpmCtx.sleep, RpmCtx.active] ∧
       (t 1 ≠ 0 → (clk_smd_rpm_enable_scaling k mt sid t).1 = t 1) ∧
       (t 1 = 0 → (clk_smd_rpm_enable_scaling k mt sid t).1 = 0)) := by
  by_cases h0 : t 0 = 0 <;> by_cases h1 : t 1 = 0 <;>
    simp [clk_smd_rpm_enable_scaling, h0, h1]

/-- Witness for C10 with concrete constants and a transport rejecting
the first (sleep) write. -/
theorem enable_scaling_sleep_first_witness :
    ((tC4 0 : Int) ≠ 0 →
       (clk_smd_rpm_enable_scaling 3 4 2 tC4).1 = tC4 0 ∧
       (clk_smd_rpm_enable_scaling 3 4 2 tC4).2.map Vote.ctx = [RpmCtx.sleep]) ∧
    (tC4 0 = 0 →
       (clk_smd_rpm_enable_scaling 3 4 2 tC4).2.map Vote.ctx =
         [RpmCtx.sleep, RpmCtx.active] ∧
       (tC4 1 ≠ 0 → (clk_smd_rpm_enable_scaling 3 4 2 tC4).1 = tC4 1) ∧
       (tC4 1 = 0 → (clk_smd_rpm_enable_scaling 3 4 2 tC4).1 = 0)) :=
  enable_scaling_sleep_first 3 4 2 tC4

/-- Claim C1 (amended): when prepare of a nonzero-rate handle gets its
active vote accepted and its sleep vote rejected, exactly one
compensating active-context vote for the raw peer contribution is
submitted, and the operation returns the compensating write's result:
its error if it fails, success if it succeeds, in which case enabled
even becomes true. -/
theorem prepare_sleep_fail_compensating (r peer : ClkSmdRpm) (t : Transport)
    (hr : r.rate ≠ 0) (h0 : t 0 = 0) (h1 : t 1 ≠ 0) (he : r.enabled = false) :
    (clk_smd_rpm_prepare r peer t).votes.map Vote.ctx =
      [RpmCtx.active, RpmCtx.sleep, RpmCtx.active] ∧
    (clk_smd_rpm_prepare r peer t).votes.get? 2 =
      some (clk_smd_rpm_set_rate_active r
        (if peer.enabled then peer.rate else 0)) ∧
    (clk_smd_rpm_prepare r peer t).ret = t 2 ∧
    ((clk_smd_rpm_prepare r peer t).clk.enabled = true ↔ t 2 = 0) := by
  by_cases hp : peer.enabled = true <;> by_cases h2 : t 2 = 0 <;>
    simp [clk_smd_rpm_prepare, clk_smd_rpm_set_rate_active,
          clk_smd_rpm_set_rate_sleep, to_active_sleep, hr, h0, h1, he, hp, h2]

/-- Counterexample to C1 as stated: with the sleep vote failing (-5) and
the compensating vote accepted, prepare reports success (0, not -5) and
leaves the handle enabled. -/
theorem prepare_sleep_fail_cex :
    tC1 1 = -5 ∧
    (clk_smd_rpm_prepare hBus hPeerOff tC1).ret = 0 ∧
    (clk_smd_rpm_prepare hBus hPeerOff tC1).clk.enabled = true := by decide

/-- Witness for C1 (amended) at the concrete sleep-failure run. -/
theorem prepare_sleep_fail_compensating_witness :
    hBus.rate ≠ 0 ∧ tC1 0 = 0 ∧ tC1 1 ≠ 0 ∧ hBus.enabled = false ∧
    ((clk_smd_rpm_prepare hBus hPeerOff tC1).votes.map Vote.ctx =
       [RpmCtx.active, RpmCtx.sleep, RpmCtx.active] ∧
     (clk_smd_rpm_prepare hBus hPeerOff tC1).votes.get? 2 =
       some (clk_smd_rpm_set_rate_active hBus
         (if hPeerOff.enabled then hPeerOff.rate else 0)) ∧
     (clk_smd_rpm_prepare hBus hPeerOff tC1).ret = tC1 2 ∧
     ((clk_smd_rpm_prepare hBus hPeerOff tC1).clk.enabled = true ↔ tC1 2 = 0)) :=
  ⟨by decide, by decide, by decide, by decide,
   prepare_sleep_fail_compensating hBus hPeerOff tC1
     (by decide) (by decide) (by decide) (by decide)⟩

/-- Claim C2 (amended): enabled after prepare equals true exactly when
prepare returned success (otherwise it keeps its previous value); a
fully-succeeded unprepare of a nonzero-rate handle leaves enabled false;
an unprepare of a rate-0 handle changes nothing at all (in particular a
rate-0 handle that was enabled stays enabled). -/
theorem enabled_flag_transitions (r peer : ClkSmdRpm) (t : Transport) :
    ((clk_smd_rpm_prepare r peer t).clk.enabled =
       (if (clk_smd_rpm_prepare r peer t).ret = 0 then true else r.enabled)) ∧
    (r.rate ≠ 0 → t 0 = 0 → t 1 = 0 →
       (clk_smd_rpm_unprepare r peer t).clk.enabled = false) ∧
    (r.rate = 0 →
       (clk_smd_rpm_unprepare r peer t).clk = r ∧
       (clk_smd_rpm_unprepare r peer t).votes = []) := by
  by_cases hr : r.rate = 0 <;> by_cases h0 : t 0 = 0 <;>
    by_cases h1 : t 1 = 0 <;> by_cases h2 : t 2 = 0 <;>
    simp [clk_smd_rpm_prepare, clk_smd_rpm_unprepare, hr, h0, h1, h2]

/-- Counterexample to C2 as stated: a rate-0 handle that is enabled goes
through a fully-succeeded unprepare (no vote can fail: none is sent) and
is still enabled afterwards. -/
theorem unprepare_zero_rate_cex :
    hZeroOn.rate = 0 ∧ hZeroOn.enabled = true ∧
    (clk_smd_rpm_unprepare hZeroOn hPeerOff tOk).votes = [] ∧
    (clk_smd_rpm_unprepare hZeroOn hPeerOff tOk).clk.enabled = true := by decide

/-- Witness for C2 (amended) at a concrete handle and transport. -/
theorem enabled_flag_transitions_witness :
    ((clk_smd_rpm_prepare hBus hPeerOff tOk).clk.enabled =
       (if (clk_smd_rpm_prepare hBus hPeerOff tOk).ret = 0 then true
        else hBus.enabled)) ∧
    (hBus.rate ≠ 0 → tOk 0 = 0 → tOk 1 = 0 →
       (clk_smd_rpm_unprepare hBus hPeerOff tOk).clk.enabled = false) ∧
    (hBus.rate = 0 →
       (clk_smd_rpm_unprepare hBus hPeerOff tOk).clk = hBus ∧
       (clk_smd_rpm_unprepare hBus hPeerOff tOk).votes = []) :=
  enabled_flag_transitions hBus hPeerOff tOk

/-- Claim C3 (amended): an active-vote failure in prepare and either
vote failure in set-rate are returned verbatim with no retry (one
submission per vote); a sleep-vote failure in prepare is instead
reported as the compensating active vote's result; unprepare submits at
most one vote per context with no retry but, returning void, never
reports the failure (the handle is simply left unchanged). -/
theorem vote_error_reporting (r peer : ClkSmdRpm) (rate : Nat) (t : Transport) :
    (r.rate ≠ 0 → t 0 ≠ 0 →
       (clk_smd_rpm_prepare r peer t).ret = t 0 ∧
       (clk_smd_rpm_prepare r peer t).votes.length = 1) ∧
    (r.rate ≠ 0 → t 0 = 0 → t 1 ≠ 0 →
       (clk_smd_rpm_prepare r peer t).ret = t 2 ∧
       (clk_smd_rpm_prepare r peer t).votes.length = 3) ∧
    (r.enabled = true → t 0 ≠ 0 →
       (clk_smd_rpm_set_rate r peer rate t).ret = t 0 ∧
       (clk_smd_rpm_set_rate r peer rate t).votes.length = 1) ∧
    (r.enabled = true → t 0 = 0 → t 1 ≠ 0 →
       (clk_smd_rpm_set_rate r peer rate t).ret = t 1 ∧
       (clk_smd_rpm_set_rate r peer rate t).votes.length = 2) ∧
    (r.rate ≠ 0 → t 0 ≠ 0 →
       (clk_smd_rpm_unprepare r peer t).clk = r ∧
       (clk_smd_rpm_unprepare r peer t).votes.length = 1) ∧
    (r.rate ≠ 0 → t 0 = 0 → t 1 ≠ 0 →
       (clk_smd_rpm_unprepare r peer t).clk = r ∧
       (clk_smd_rpm_unprepare r peer t).votes.length = 2) := by
  by_cases hr : r.rate = 0 <;> by_cases he : r.enabled = true <;>
    by_cases h0 : t 0 = 0 <;> by_cases h1 : t 1 = 0 <;> by_cases h2 : t 2 = 0 <;>
    simp [clk_smd_rpm_prepare, clk_smd_rpm_unprepare, clk_smd_rpm_set_rate,
          hr, he, h0, h1, h2]

/-- Counterexample to C3 as stated: the sleep vote fails with -19, yet
prepare returns -7, the error of the compensating vote, not the
transport error of the failed vote. -/
theorem vote_error_reporting_cex :
    tC3 1 = -19 ∧
    (clk_smd_rpm_prepare hBus hPeerOff tC3).ret = -7 ∧
    (-7 : Int) ≠ -19 := by decide

/-- Witness for C3 (amended) at a concrete handle and transport. -/
theorem vote_error_reporting_witness :
    (hBus.rate ≠ 0 → tC3 0 ≠ 0 →
       (clk_smd_rpm_prepare hBus hPeerOff tC3).ret = tC3 0 ∧
       (clk_smd_rpm_prepare hBus hPeerOff tC3).votes.length = 1) ∧
    (hBus.rate ≠ 0 → tC3 0 = 0 → tC3 1 ≠ 0 →
       (clk_smd_rpm_prepare hBus hPeerOff tC3).ret = tC3 2 ∧
       (clk_smd_rpm_prepare hBus hPeerOff tC3).votes.length = 3) ∧
    (hBus.enabled = true → tC3 0 ≠ 0 →
       (clk_smd_rpm_set_rate hBus hPeerOff 1000 tC3).ret = tC3 0 ∧
       (clk_smd_rpm_set_rate hBus hPeerOff 1000 tC3).votes.length = 1) ∧
    (hBus.enabled = true → tC3 0 = 0 → tC3 1 ≠ 0 →
       (clk_smd_rpm_set_rate hBus hPeerOff 1000 tC3).ret = tC3 1 ∧
       (clk_smd_rpm_set_rate hBus hPeerOff 1000 tC3).votes.length = 2) ∧
    (hBus.rate ≠ 0 → tC3 0 ≠ 0 →
       (clk_smd_rpm_unprepare hBus hPeerOff tC3).clk = hBus ∧
       (clk_smd_rpm_unprepare hBus hPeerOff tC3).votes.length = 1) ∧
    (hBus.rate ≠ 0 → tC3 0 = 0 → tC3 1 ≠ 0 →
       (clk_smd_rpm_unprepare hBus hPeerOff tC3).clk = hBus ∧
       (clk_smd_rpm_unprepare hBus hPeerOff tC3).votes.length = 2) :=
  vote_error_reporting hBus hPeerOff 1000 tC3

/-- Claim C4 (amended): the compensating active-context vote of the
prepare rollback encodes the raw peer active contribution — the peer
rate if the peer is enabled, else 0 — handed directly to the encoder
with no branch normalization (a branch handle therefore votes the
kilohertz value, not a 0/1 presence bit). -/
theorem compensating_vote_raw_peer_rate (r peer : ClkSmdRpm) (t : Transport)
    (hr : r.rate ≠ 0) (h0 : t 0 = 0) (h1 : t 1 ≠ 0) :
    (clk_smd_rpm_prepare r peer t).votes.get? 2 =
      some (clk_smd_rpm_set_rate_active r
        (if peer.enabled then peer.rate else 0)) := by
  by_cases hp : peer.enabled = true <;> by_cases h2 : t 2 = 0 <;>
    simp [clk_smd_rpm_prepare, to_active_sleep, hr, h0, h1, hp, h2]

/-- Counterexample to C4 as stated: for a branch handle whose enabled
branch peer runs at 19.2 MHz, the compensating vote encodes 19200, not
the boolean presence 0 or 1 the claim requires. -/
theorem compensating_vote_branch_cex :
    hXo.branch = true ∧ hXoPeer.enabled = true ∧
    ((clk_smd_rpm_prepare hXo hXoPeer tC4).votes.get? 2).map
        (fun v => v.req.value) = some 19200 ∧
    (19200 : Nat) ≠ 0 ∧ (19200 : Nat) ≠ 1 := by decide

/-- Witness for C4 (amended) at a concrete sleep-failure run. -/
theorem compensating_vote_raw_peer_rate_witness :
    hBus.rate ≠ 0 ∧ tC4 0 = 0 ∧ tC4 1 ≠ 0 ∧
    (clk_smd_rpm_prepare hBus hPeerOff tC4).votes.get? 2 =
      some (clk_smd_rpm_set_rate_active hBus
        (if hPeerOff.enabled then hPeerOff.rate else 0)) :=
  ⟨by decide, by decide, by decide,
   compensating_vote_raw_peer_rate hBus hPeerOff tC4
     (by decide) (by decide) (by decide)⟩

/-- An empty submission list is well ordered. -/
theorem sleepAfterActiveOk_nil (t : Transport) : sleepAfterActiveOk t [] := by
  constructor
  · intro v hv; simp at hv
  · intro i v hv; simp at hv

/-- A single active submission is well ordered. -/
theorem sleepAfterActiveOk_one (t : Transport) (a : Vote)
    (ha : a.ctx = RpmCtx.active) : sleepAfterActiveOk t [a] := by
  constructor
  · intro v hv; simp at hv; rw [← hv]; exact ha
  · intro i v hv hs
    match i with
    | 0 => simp at hv; rw [← hv] at hs; rw [ha] at hs; cases hs
    | j + 1 => simp at hv

/-- An accepted active submission followed by a sleep submission is well
ordered. -/
theorem sleepAfterActiveOk_two (t : Transport) (a s : Vote)
    (ha : a.ctx = RpmCtx.active) (h0 : t 0 = 0) :
    sleepAfterActiveOk t [a, s] := by
  constructor
  · intro v hv; simp at hv; rw [← hv]; exact ha
  · intro i v hv hs
    match i with
    | 0 => simp at hv; rw [← hv] at hs; rw [ha] at hs; cases hs
    | 1 => exact ⟨0, a, by omega, rfl, ha, h0⟩
    | j + 2 => simp at hv

/-- An accepted active submission, a sleep submission, and a trailing
active submission are well ordered. -/
theorem sleepAfterActiveOk_three (t : Transport) (a s b : Vote)
    (ha : a.ctx = RpmCtx.active) (hb : b.ctx = RpmCtx.active)
    (h0 : t 0 = 0) : sleepAfterActiveOk t [a, s, b] := by
  constructor
  · intro v hv; simp at hv; rw [← hv]; exact ha
  · intro i v hv hs
    match i with
    | 0 => simp at hv; rw [← hv] at hs; rw [ha] at hs; cases hs
    | 1 => exact ⟨0, a, by omega, rfl, ha, h0⟩
    | 2 => simp at hv; rw [← hv] at hs; rw [hb] at hs; cases hs
    | j + 3 => simp at hv

/-- The prepare submissions are well ordered. -/
theorem prepare_ordered (r peer : ClkSmdRpm) (t : Transport) :
    sleepAfterActiveOk t (clk_smd_rpm_prepare r peer t).votes := by
  by_cases hr : r.rate = 0 <;> by_cases h0 : t 0 = 0 <;>
    by_cases h1 : t 1 = 0 <;> by_cases h2 : t 2 = 0 <;>
    simp only [clk_smd_rpm_prepare, hr, h0, h1, h2, if_true, if_false,
      ite_true, ite_false, ne_eq, not_true, not_false_iff, if_neg, if_pos,
      not_false_eq_true, not_true_eq_false, reduceIte]
  all_goals
    first
    | exact sleepAfterActiveOk_nil t
    | exact sleepAfterActiveOk_one t _ rfl
    | exact sleepAfterActiveOk_two t _ _ rfl h0
    | exact sleepAfterActiveOk_three t _ _ _ rfl rfl h0

/-- The unprepare submissions are well ordered. -/
theorem unprepare_ordered (r peer : ClkSmdRpm) (t : Transport) :
    sleepAfterActiveOk t (clk_smd_rpm_unprepare r peer t).votes := by
  by_cases hr : r.rate = 0 <;> by_cases h0 : t 0 = 0 <;>
    by_cases h1 : t 1 = 0 <;>
    simp only [clk_smd_rpm_unprepare, hr, h0, h1, if_true, if_false,
      ite_true, ite_false, ne_eq, not_true, not_false_iff, if_neg, if_pos,
      not_false_eq_true, not_true_eq_false, reduceIte]
  all_goals
    first
    | exact sleepAfterActiveOk_nil t
    | exact sleepAfterActiveOk_one t _ rfl
    | exact sleepAfterActiveOk_two t _ _ rfl h0

/-- The set-rate submissions are well ordered. -/
theorem set_rate_ordered (r peer : ClkSmdRpm) (rate : Nat) (t : Transport) :
    sleepAfterActiveOk t (clk_smd_rpm_set_rate r peer rate t).votes := by
  by_cases he : r.enabled = true <;> by_cases h0 : t 0 = 0 <;>
    by_cases h1 : t 1 = 0 <;>
    simp only [clk_smd_rpm_set_rate, he, h0, h1, if_true, if_false,
      ite_true, ite_false, ne_eq, not_true, not_false_iff, if_neg, if_pos,
      not_false_eq_true, not_true_eq_false, reduceIte, Bool.false_eq_true]
  all_goals
    first
    | exact sleepAfterActiveOk_nil t
    | exact sleepAfterActiveOk_one t _ rfl
    | exact sleepAfterActiveOk_two t _ _ rfl h0

/-- Claim C6: in each of prepare, unprepare and set-rate, the first
submission (when any is made) targets the active context, and every
sleep-context submission is preceded by an active-context submission the
transport accepted; this also covers the rollback trace, whose trailing
compensating submission is active-context and is followed by no sleep
submission. -/
theorem lifecycle_active_before_sleep (r peer : ClkSmdRpm) (rate : Nat)
    (t : Transport) :
    sleepAfterActiveOk t (clk_smd_rpm_prepare r peer t).votes ∧
    sleepAfterActiveOk t (clk_smd_rpm_unprepare r peer t).votes ∧
    sleepAfterActiveOk t (clk_smd_rpm_set_rate r peer rate t).votes :=
  ⟨prepare_ordered r peer t, unprepare_ordered r peer t,
   set_rate_ordered r peer rate t⟩

/-- Witness for C6 at a concrete handle, peer and transport. -/
theorem lifecycle_active_before_sleep_witness :
    sleepAfterActiveOk tC1 (clk_smd_rpm_prepare hBus hXoPeer tC1).votes ∧
    sleepAfterActiveOk tC1 (clk_smd_rpm_unprepare hBus hXoPeer tC1).votes ∧
    sleepAfterActiveOk tC1 (clk_smd_rpm_set_rate hBus hXoPeer 1000 tC1).votes :=
  lifecycle_active_before_sleep hBus hXoPeer 1000 tC1

/-- The little-endian image depends only on the low 32 bits. -/
theorem u32le_mod (n : Nat) : u32le (n % U32) = u32le n := by
  simp only [u32le, U32, List.cons.injEq, and_true]
  refine ⟨?_, ?_, ?_, ?_⟩ <;> omega

/-- Claim C9 (amended): for every 64-bit rate, the per-handle vote
payload is 12 bytes, the concatenation of the little-endian u32 key, the
constant length 4, and the value ((rate + 999) mod 2^64) / 1000
truncated to 32 bits.  Whenever the wrapping sum is vacuous (every rate
up to 2^64 - 1000) the value is ceil of rate over 1000 reduced mod 2^32,
and whenever that ceiling also fits in a u32 it is exactly the ceiling
(characterized by its Galois property); at the top of the u64 range the
wrapped sum encodes 0, and the cited examples hold. -/
theorem vote_payload_layout (r : ClkSmdRpm) (rate : Nat) (h : rate < U64) :
    (reqBytes (clk_smd_rpm_set_rate_active r rate).req).length = 12 ∧
    reqBytes (clk_smd_rpm_set_rate_active r rate).req =
      u32le r.rpm_key ++ u32le 4 ++ u32le ((rate + 999) % U64 / 1000 % U32) ∧
    reqBytes (clk_smd_rpm_set_rate_sleep r rate).req =
      u32le r.rpm_key ++ u32le 4 ++ u32le ((rate + 999) % U64 / 1000 % U32) ∧
    (rate + 999 < U64 →
       (clk_smd_rpm_set_rate_active r rate).req.value =
         (rate + 999) / 1000 % U32) ∧
    (rate ≤ 1000 * (U32 - 1) →
       (clk_smd_rpm_set_rate_active r rate).req.value = (rate + 999) / 1000 ∧
       ∀ k : Nat, (rate + 999) / 1000 ≤ k ↔ rate ≤ 1000 * k) ∧
    toU32 (div_round_up64 (U64 - 1) 1000) = 0 ∧
    toU32 (div_round_up64 19200000 1000) = 19200 ∧
    toU32 (div_round_up64 1 1000) = 1 ∧
    toU32 (div_round_up64 1000 1000) = 1 ∧
    toU32 (div_round_up64 1001 1000) = 2 := by
  have hsum : rate + 1000 - 1 = rate + 999 := by omega
  refine ⟨?_, ?_, ?_, ?_, ?_,
    by decide, by decide, by decide, by decide, by decide⟩
  · simp [reqBytes, u32le]
  · rw [clk_smd_rpm_set_rate_active]
    simp only [reqBytes, toU32, div_round_up64, hsum]
    rw [u32le_mod r.rpm_key]
  · rw [clk_smd_rpm_set_rate_sleep]
    simp only [reqBytes, toU32, div_round_up64, hsum]
    rw [u32le_mod r.rpm_key]
  · intro hw
    simp only [clk_smd_rpm_set_rate_active, toU32, div_round_up64, hsum]
    rw [Nat.mod_eq_of_lt hw]
  · intro hf
    have hU32 : U32 = 4294967296 := rfl
    have hU64 : U64 = 18446744073709551616 := rfl
    have hw : (rate + 999) % U64 = rate + 999 := Nat.mod_eq_of_lt (by omega)
    have hq : (rate + 999) / 1000 < U32 := by omega
    constructor
    · simp only [clk_smd_rpm_set_rate_active, toU32, div_round_up64, hsum]
      rw [hw, Nat.mod_eq_of_lt hq]
    · intro k
      omega

/-- Counterexample to C9 as stated: at 4294967296000 Hz the rounded-up
kHz value is 2^32, which the u32 value field stores as 0, so the encoded
value does not equal ceil of the rate over 1000. -/
theorem vote_payload_truncation_cex :
    (clk_smd_rpm_set_rate_active hBus 4294967296000).req.value = 0 ∧
    (4294967296000 + 999) / 1000 = 4294967296 ∧
    (clk_smd_rpm_set_rate_active hBus 4294967296000).req.value ≠
      (4294967296000 + 999) / 1000 := by decide

/-- Witness for C9 (amended) at the 19.2 MHz example rate. -/
theorem vote_payload_layout_witness :
    (19200000 : Nat) < U64 ∧
    ((reqBytes (clk_smd_rpm_set_rate_active hBus 19200000).req).length = 12 ∧
     reqBytes (clk_smd_rpm_set_rate_active hBus 19200000).req =
       u32le hBus.rpm_key ++ u32le 4 ++
         u32le ((19200000 + 999) % U64 / 1000 % U32) ∧
     reqBytes (clk_smd_rpm_set_rate_sleep hBus 19200000).req =
       u32le hBus.rpm_key ++ u32le 4 ++
         u32le ((19200000 + 999) % U64 / 1000 % U32) ∧
     (19200000 + 999 < U64 →
        (clk_smd_rpm_set_rate_active hBus 19200000).req.value =
          (19200000 + 999) / 1000 % U32) ∧
     ((19200000 : Nat) ≤ 1000 * (U32 - 1) →
        (clk_smd_rpm_set_rate_active hBus 19200000).req.value =
          (19200000 + 999) / 1000 ∧
        ∀ k : Nat, (19200000 + 999) / 1000 ≤ k ↔ 19200000 ≤ 1000 * k) ∧
     toU32 (div_round_up64 (U64 - 1) 1000) = 0 ∧
     toU32 (div_round_up64 19200000 1000) = 19200 ∧
     toU32 (div_round_up64 1 1000) = 1 ∧
     toU32 (div_round_up64 1000 1000) = 1 ∧
     toU32 (div_round_up64 1001 1000) = 2) :=
  ⟨by decide, vote_payload_layout hBus 19200000 (by decide)⟩
